import Mathlib

/-!
Verification of the windowed selection engine ("Picker") of the television
repository, embedded from `crates/television/picker.rs`.

Modelling conventions:
* `usize` values are `Nat`s; the machine bound `usize::MAX` is `USIZE_MAX = 2^64 - 1`
  and is made explicit exactly where the Rust code's arithmetic depends on it:
  `saturating_add` / `saturating_sub` saturate at the bound, while the unchecked
  `+` of `(relative_selected + 1)` and `(selected + (total_items - 1))`, the `%`
  by `total_items`, and the unchecked `total_items - 1` can fault (overflow,
  division by zero, underflow).  A faulting navigation call is modelled as
  returning `none`; a completing call returns `some` of the updated state.
* `ratatui::widgets::ListState` is external to the repository; the Picker only
  uses its `select`/`selected` accessors, which store and read an
  `Option<usize>`, so each `ListState` is embedded as its `Option Nat`
  selection.
* `crate::ui::input::Input` (the text-entry sub-state) is external to the
  sources under verification; the Picker never inspects it for the properties
  proved here, so it is embedded as an opaque wrapper around its text.
-/

set_option autoImplicit false

/-- The largest value of the 64-bit `usize` type. -/
def USIZE_MAX : Nat := 2 ^ 64 - 1

/-- Opaque embedding of the text-entry sub-state `crate::ui::input::Input`
(external to the verified sources; the Picker only stores and resets it). -/
structure Input where
  text : String
deriving DecidableEq

/-- `Input::new` (external collaborator, kept opaque). -/
def Input.new (s : String) : Input := ⟨s⟩

/-- The Picker state from `picker.rs`: the two `ListState` cursors (embedded as
their `Option<usize>` selections), the inversion flag and the text-entry
sub-state. -/
structure Picker where
  state : Option Nat
  relative_state : Option Nat
  inverted : Bool
  input : Input
deriving DecidableEq

/-- `Picker::new`: both cursors unset (`ListState::default()` has no
selection), not inverted, empty input. -/
def Picker.new : Picker :=
  { state := none, relative_state := none, inverted := false, input := Input.new "" }

/-- `Picker::selected`. -/
def Picker.selected (p : Picker) : Option Nat := p.state

/-- `Picker::relative_selected`. -/
def Picker.relative_selected (p : Picker) : Option Nat := p.relative_state

/-- `Picker::select`: unconditional setter of the absolute cursor. -/
def Picker.select (p : Picker) (index : Option Nat) : Picker :=
  { p with state := index }

/-- `Picker::relative_select`: unconditional setter of the relative cursor. -/
def Picker.relative_select (p : Picker) (index : Option Nat) : Picker :=
  { p with relative_state := index }

/-- `Picker::offset`:
`self.selected().unwrap_or(0).saturating_sub(self.relative_selected().unwrap_or(0))`;
`Nat` subtraction is exactly `saturating_sub`. -/
def Picker.offset (p : Picker) : Nat :=
  (p.selected.getD 0) - (p.relative_selected.getD 0)

/-- `Picker::inverted(mut self) -> Self`: the consuming builder that flips the
inversion flag (named `inverted_fn` here because the field already carries the
source name). -/
def Picker.inverted_fn (p : Picker) : Picker :=
  { p with inverted := !p.inverted }

/-- `Picker::_select_next`.  Faults (`none`): `% total_items` is a division by
zero when `total_items = 0`, and the unchecked `relative_selected + 1`
overflows when `relative_selected = usize::MAX`.  `selected.saturating_add(1)`
never faults: it saturates at `usize::MAX`. -/
def Picker._select_next (p : Picker) (total_items height : Nat) : Option Picker :=
  let selected := p.selected.getD 0
  let relative_selected := p.relative_selected.getD 0
  if total_items = 0 then none
  else
    let newSelected := (min (selected + 1) USIZE_MAX) % total_items
    if USIZE_MAX < relative_selected + 1 then none
    else
      let p2 := (p.select (some newSelected)).relative_select
        (some (min (relative_selected + 1) height))
      if newSelected = 0 then some (p2.relative_select (some 0)) else some p2

/-- `Picker::_select_prev`.  Faults (`none`): the unchecked `total_items - 1`
underflows when `total_items = 0`, and the unchecked
`selected + (total_items - 1)` overflows when the sum exceeds `usize::MAX`.
`relative_selected.saturating_sub(1)` is `Nat` subtraction. -/
def Picker._select_prev (p : Picker) (total_items height : Nat) : Option Picker :=
  let selected := p.selected.getD 0
  let relative_selected := p.relative_selected.getD 0
  if total_items = 0 then none
  else if USIZE_MAX < selected + (total_items - 1) then none
  else
    let newSelected := (selected + (total_items - 1)) % total_items
    let p2 := (p.select (some newSelected)).relative_select
      (some (relative_selected - 1))
    if newSelected = total_items - 1 then some (p2.relative_select (some height))
    else some p2

/-- `Picker::select_next`: dispatches on the inversion flag. -/
def Picker.select_next (p : Picker) (total_items height : Nat) : Option Picker :=
  if p.inverted then p._select_prev total_items height
  else p._select_next total_items height

/-- `Picker::select_prev`: dispatches on the inversion flag. -/
def Picker.select_prev (p : Picker) (total_items height : Nat) : Option Picker :=
  if p.inverted then p._select_next total_items height
  else p._select_prev total_items height

/-- The cursor pair of a (possibly faulted) navigation result; used to compare
cursor transitions across Pickers that differ in flag or input. -/
def cursors (o : Option Picker) : Option (Option Nat × Option Nat) :=
  o.map (fun q => (q.state, q.relative_state))

/-- Characterization of `_select_next`: it returns `some` exactly when
`total_items ≠ 0` and the relative increment does not overflow, and then the
result is the source's update of the two cursors. -/
theorem selectNextImpl_eq_some_iff (p : Picker) (t h : Nat) (q : Picker) :
    p._select_next t h = some q ↔
      t ≠ 0 ∧ p.relative_state.getD 0 + 1 ≤ USIZE_MAX ∧
      q = { p with
        state := some ((min (p.state.getD 0 + 1) USIZE_MAX) % t),
        relative_state := some (if (min (p.state.getD 0 + 1) USIZE_MAX) % t = 0
          then 0 else min (p.relative_state.getD 0 + 1) h) } := by
  by_cases h1 : t = 0
  · subst h1
    simp [Picker._select_next]
  · by_cases h2 : USIZE_MAX < p.relative_state.getD 0 + 1
    · have hn : p._select_next t h = none := by
        simp [Picker._select_next, Picker.relative_selected, h1, h2]
      rw [hn]
      constructor
      · exact fun hc => Option.noConfusion hc
      · rintro ⟨-, hle, -⟩
        omega
    · have hr : p.relative_state.getD 0 + 1 ≤ USIZE_MAX := Nat.not_lt.mp h2
      have hx : p._select_next t h = some { p with
          state := some ((min (p.state.getD 0 + 1) USIZE_MAX) % t),
          relative_state := some (if (min (p.state.getD 0 + 1) USIZE_MAX) % t = 0
            then 0 else min (p.relative_state.getD 0 + 1) h) } := by
        simp only [Picker._select_next, Picker.selected, Picker.relative_selected,
          Picker.select, Picker.relative_select]
        rw [if_neg h1, if_neg h2]
        split_ifs with h3 <;> rfl
      rw [hx]
      constructor
      · intro hc
        exact ⟨h1, hr, (Option.some_inj.mp hc).symm⟩
      · rintro ⟨-, -, hq⟩
        rw [hq]

/-- Characterization of `_select_prev`: it returns `some` exactly when
`total_items ≠ 0` and `selected + (total_items - 1)` does not overflow, and
then the result is the source's update of the two cursors. -/
theorem selectPrevImpl_eq_some_iff (p : Picker) (t h : Nat) (q : Picker) :
    p._select_prev t h = some q ↔
      t ≠ 0 ∧ p.state.getD 0 + (t - 1) ≤ USIZE_MAX ∧
      q = { p with
        state := some ((p.state.getD 0 + (t - 1)) % t),
        relative_state := some (if (p.state.getD 0 + (t - 1)) % t = t - 1
          then h else p.relative_state.getD 0 - 1) } := by
  by_cases h1 : t = 0
  · subst h1
    simp [Picker._select_prev]
  · by_cases h2 : USIZE_MAX < p.state.getD 0 + (t - 1)
    · have hn : p._select_prev t h = none := by
        simp [Picker._select_prev, Picker.selected, h1, h2]
      rw [hn]
      constructor
      · exact fun hc => Option.noConfusion hc
      · rintro ⟨-, hle, -⟩
        omega
    · have hs : p.state.getD 0 + (t - 1) ≤ USIZE_MAX := Nat.not_lt.mp h2
      have hx : p._select_prev t h = some { p with
          state := some ((p.state.getD 0 + (t - 1)) % t),
          relative_state := some (if (p.state.getD 0 + (t - 1)) % t = t - 1
            then h else p.relative_state.getD 0 - 1) } := by
        simp only [Picker._select_prev, Picker.selected, Picker.relative_selected,
          Picker.select, Picker.relative_select]
        rw [if_neg h1, if_neg h2]
        split_ifs with h3 <;> rfl
      rw [hx]
      constructor
      · intro hc
        exact ⟨h1, hs, (Option.some_inj.mp hc).symm⟩
      · rintro ⟨-, -, hq⟩
        rw [hq]

/-- Dispatch of `select_next` on a non-inverted Picker. -/
theorem select_next_not_inverted (p : Picker) (t h : Nat) (hinv : p.inverted = false) :
    Picker.select_next p t h = p._select_next t h := by
  unfold Picker.select_next
  rw [hinv]
  rfl

/-- Dispatch of `select_next` on an inverted Picker. -/
theorem select_next_inverted (p : Picker) (t h : Nat) (hinv : p.inverted = true) :
    Picker.select_next p t h = p._select_prev t h := by
  unfold Picker.select_next
  rw [hinv]
  rfl

/-- Dispatch of `select_prev` on a non-inverted Picker. -/
theorem select_prev_not_inverted (p : Picker) (t h : Nat) (hinv : p.inverted = false) :
    Picker.select_prev p t h = p._select_prev t h := by
  unfold Picker.select_prev
  rw [hinv]
  rfl

/-- Dispatch of `select_prev` on an inverted Picker. -/
theorem select_prev_inverted (p : Picker) (t h : Nat) (hinv : p.inverted = true) :
    Picker.select_prev p t h = p._select_next t h := by
  unfold Picker.select_prev
  rw [hinv]
  rfl

/-- `_select_next` faults when the stored relative index is `usize::MAX`
(the unchecked `relative_selected + 1` overflows). -/
theorem selectNextImpl_overflow (p : Picker) (t h : Nat)
    (hr : USIZE_MAX < p.relative_state.getD 0 + 1) :
    p._select_next t h = none := by
  cases hq : p._select_next t h with
  | none => rfl
  | some q =>
    obtain ⟨-, h2, -⟩ := (selectNextImpl_eq_some_iff p t h q).mp hq
    omega

/-- `_select_prev` faults when `selected + (total_items - 1)` exceeds
`usize::MAX` (the unchecked addition overflows). -/
theorem selectPrevImpl_overflow (p : Picker) (t h : Nat)
    (hs : USIZE_MAX < p.state.getD 0 + (t - 1)) :
    p._select_prev t h = none := by
  cases hq : p._select_prev t h with
  | none => rfl
  | some q =>
    obtain ⟨-, h2, -⟩ := (selectPrevImpl_eq_some_iff p t h q).mp hq
    omega

/-- General advance equation: on a non-inverted Picker whose stored cursors
are strictly below `usize::MAX`, `select_next` performs the spec's advance
step. -/
theorem selectNext_advance_eq (st rel : Option Nat) (inp : Input) (t h : Nat)
    (ht : 1 ≤ t) (hs : st.getD 0 < USIZE_MAX) (hr : rel.getD 0 < USIZE_MAX) :
    Picker.select_next ⟨st, rel, false, inp⟩ t h =
      some ⟨some ((st.getD 0 + 1) % t),
            some (if (st.getD 0 + 1) % t = 0 then 0 else min (rel.getD 0 + 1) h),
            false, inp⟩ := by
  rw [select_next_not_inverted _ _ _ rfl, selectNextImpl_eq_some_iff]
  have hmin : min (st.getD 0 + 1) USIZE_MAX = st.getD 0 + 1 :=
    Nat.min_eq_left (by omega)
  refine ⟨by omega, show rel.getD 0 + 1 ≤ USIZE_MAX by omega, ?_⟩
  show Picker.mk _ _ _ _ = Picker.mk (some ((min (st.getD 0 + 1) USIZE_MAX) % t))
    (some (if (min (st.getD 0 + 1) USIZE_MAX) % t = 0
      then 0 else min (rel.getD 0 + 1) h)) false inp
  rw [hmin]

/-- General retreat equation: on a non-inverted Picker, when
`selected + (total_items - 1)` stays within `usize`, `select_prev` performs
the spec's retreat step. -/
theorem selectPrev_retreat_eq (st rel : Option Nat) (inp : Input) (t h : Nat)
    (ht : 1 ≤ t) (hs : st.getD 0 + (t - 1) ≤ USIZE_MAX) :
    Picker.select_prev ⟨st, rel, false, inp⟩ t h =
      some ⟨some ((st.getD 0 + (t - 1)) % t),
            some (if (st.getD 0 + (t - 1)) % t = t - 1 then h else rel.getD 0 - 1),
            false, inp⟩ := by
  rw [select_prev_not_inverted _ _ _ rfl, selectPrevImpl_eq_some_iff]
  exact ⟨by omega, hs, rfl⟩

/-- C1 (amended): for every non-inverted Picker whose stored absolute and
relative cursors (each taken as 0 when unset) are strictly below `usize::MAX`,
and every `total_items ≥ 1` and height, `select_next` sets the absolute
selection to `(s + 1) % total_items` and the relative index to
`min (r + 1) height`, forced to `0` whenever the new absolute selection is
`0`; the amendment adds the two `usize::MAX` bounds, without which
`saturating_add` and the unchecked `r + 1` deviate from the formula. -/
theorem select_next_advance_spec (st rel : Option Nat) (inp : Input) (t h : Nat)
    (ht : 1 ≤ t) (hs : st.getD 0 < USIZE_MAX) (hr : rel.getD 0 < USIZE_MAX) :
    Picker.select_next ⟨st, rel, false, inp⟩ t h =
      some ⟨some ((st.getD 0 + 1) % t),
            some (if (st.getD 0 + 1) % t = 0 then 0 else min (rel.getD 0 + 1) h),
            false, inp⟩ :=
  selectNext_advance_eq st rel inp t h ht hs hr

/-- C1 witness: from selection `3` of `4` items (the last one) with relative
index `2`, `select_next(4, 2)` wraps to selection `0` and re-pins the relative
index to `0`. -/
theorem select_next_advance_spec_witness :
    Picker.select_next ⟨some 3, some 2, false, Input.new ""⟩ 4 2 =
      some ⟨some 0, some 0, false, Input.new ""⟩ := by
  have := select_next_advance_spec (some 3) (some 2) (Input.new "") 4 2
    (by decide) (by decide) (by decide)
  simpa using this

/-- C1 counterexample: with stored selection `usize::MAX`, the source's
`saturating_add` leaves the selection at `usize::MAX`, so the new absolute
selection is `usize::MAX % 2 = 1` and the relative index is not re-pinned,
while the claim's formula `(s + 1) mod total_items` yields `0` with a forced
relative index of `0`. -/
theorem select_next_saturation_cex :
    Picker.select_next ⟨some USIZE_MAX, some 0, false, Input.new ""⟩ 2 5 =
      some ⟨some 1, some 1, false, Input.new ""⟩ ∧
    (USIZE_MAX + 1) % 2 = 0 ∧ (1 : Nat) ≠ 0 := by
  refine ⟨by decide, by decide, by decide⟩

/-- C2 (amended): for every non-inverted Picker and every `total_items ≥ 1`
and height such that `s + (total_items - 1)` does not exceed `usize::MAX`
(`s` the stored absolute cursor, 0 when unset), `select_prev` sets the
absolute selection to `(s + total_items - 1) % total_items` and the relative
index to `r` saturating-minus `1`, forced to `height` whenever the new
absolute selection is `total_items - 1`; the amendment adds the `usize::MAX`
bound, without which the unchecked addition faults. -/
theorem select_prev_retreat_spec (st rel : Option Nat) (inp : Input) (t h : Nat)
    (ht : 1 ≤ t) (hs : st.getD 0 + (t - 1) ≤ USIZE_MAX) :
    Picker.select_prev ⟨st, rel, false, inp⟩ t h =
      some ⟨some ((st.getD 0 + (t - 1)) % t),
            some (if (st.getD 0 + (t - 1)) % t = t - 1 then h else rel.getD 0 - 1),
            false, inp⟩ :=
  selectPrev_retreat_eq st rel inp t h ht hs

/-- C2 witness: from selection `0` of `4` items with relative index `0`,
`select_prev(4, 2)` wraps to selection `3` and pins the relative index to the
height `2`. -/
theorem select_prev_retreat_spec_witness :
    Picker.select_prev ⟨some 0, some 0, false, Input.new ""⟩ 4 2 =
      some ⟨some 3, some 2, false, Input.new ""⟩ := by
  have := select_prev_retreat_spec (some 0) (some 0) (Input.new "") 4 2
    (by decide) (by decide)
  simpa using this

/-- C2 counterexample: with stored selection `usize::MAX` and two items, the
unchecked `selected + (total_items - 1)` overflows and the call faults, while
the claim predicts a completed transition to selection
`(usize::MAX + 1) % 2 = 0`. -/
theorem select_prev_overflow_cex :
    Picker.select_prev ⟨some USIZE_MAX, some 0, false, Input.new ""⟩ 2 5 = none := by
  decide

/-- C3 (amended): for every non-inverted Picker whose stored relative index
(0 when unset) is at most `height`, and every `total_items > 0`, whenever a
`select_next` or `select_prev` call completes, the relative window index is
`Some` and lies in `[0, height]`; after `select_next` it equals `0` whenever
the new absolute selection is `0`; after `select_prev` it equals `height`
whenever the new absolute selection is `total_items - 1`; and when
`height = 0` it is always `0`.  The amendment restricts the prior relative
index to the window and attaches each extremity pin to the navigation
direction that enforces it, because the code pins the window to the top only
on forward wrap-around and to the bottom only on backward wrap-around. -/
theorem navigation_relative_bounds (p : Picker) (t h : Nat)
    (hinv : p.inverted = false) (_ht : 0 < t)
    (hrel : p.relative_state.getD 0 ≤ h) :
    (∀ q, Picker.select_next p t h = some q →
      ∃ r2, q.relative_state = some r2 ∧ r2 ≤ h ∧
        (q.state = some 0 → r2 = 0) ∧ (h = 0 → r2 = 0)) ∧
    (∀ q, Picker.select_prev p t h = some q →
      ∃ r2, q.relative_state = some r2 ∧ r2 ≤ h ∧
        (q.state = some (t - 1) → r2 = h) ∧ (h = 0 → r2 = 0)) := by
  constructor
  · intro q hq
    rw [select_next_not_inverted _ _ _ hinv, selectNextImpl_eq_some_iff] at hq
    obtain ⟨-, -, rfl⟩ := hq
    refine ⟨_, rfl, ?_, ?_, ?_⟩
    · split <;> omega
    · intro h0
      have h0n : (min (p.state.getD 0 + 1) USIZE_MAX) % t = 0 := by
        simpa using h0
      rw [if_pos h0n]
    · intro hh0
      subst hh0
      split <;> omega
  · intro q hq
    rw [select_prev_not_inverted _ _ _ hinv, selectPrevImpl_eq_some_iff] at hq
    obtain ⟨-, -, rfl⟩ := hq
    refine ⟨_, rfl, ?_, ?_, ?_⟩
    · split <;> omega
    · intro h0
      have h0n : (p.state.getD 0 + (t - 1)) % t = t - 1 := by
        simpa using h0
      rw [if_pos h0n]
    · intro hh0
      subst hh0
      split <;> omega

/-- C3 witness: from state `(sel = 2, rel = 2)` with 4 items and height 2,
`select_next` completes in state `(sel = 3, rel = 2)`, whose relative index is
`Some`, within `[0, 2]`, and not `0`. -/
theorem navigation_relative_bounds_witness :
    ∃ r2, (Picker.mk (some 3) (some 2) false (Input.new "")).relative_state = some r2 ∧
      r2 ≤ 2 ∧
      ((Picker.mk (some 3) (some 2) false (Input.new "")).state = some 0 → r2 = 0) ∧
      ((2 : Nat) = 0 → r2 = 0) :=
  (navigation_relative_bounds ⟨some 2, some 2, false, Input.new ""⟩ 4 2
    rfl (by decide) (by decide)).1
    (Picker.mk (some 3) (some 2) false (Input.new "")) (by decide)

/-- C3 counterexample: from state `(sel = 0, rel = 0)` with 2 items and
height 5, `select_next` yields selection `1 = total_items - 1` with relative
index `1 ≠ 5`; the window is not pinned to the bottom extremity when the last
item is reached by a plain forward step, contradicting the claim that the
relative index equals `height` whenever the selection is `total_items - 1`. -/
theorem relative_pin_bottom_cex :
    Picker.select_next ⟨some 0, some 0, false, Input.new ""⟩ 2 5 =
      some ⟨some 1, some 1, false, Input.new ""⟩ ∧
    (2 : Nat) - 1 = 1 ∧ (1 : Nat) ≠ 5 := by
  refine ⟨by decide, by decide, by decide⟩

/-- C4: for every prior Picker state and height, whenever a `select_next` or
`select_prev` call with `total_items > 0` completes, the absolute selection is
`Some i` with `i < total_items`. -/
theorem navigation_absolute_in_range (p : Picker) (t h : Nat) (q : Picker)
    (ht : 0 < t)
    (hq : Picker.select_next p t h = some q ∨ Picker.select_prev p t h = some q) :
    ∃ i, q.state = some i ∧ i < t := by
  have himpl : p._select_next t h = some q ∨ p._select_prev t h = some q := by
    cases hb : p.inverted
    · rcases hq with hq | hq
      · exact Or.inl ((select_next_not_inverted p t h hb) ▸ hq)
      · exact Or.inr ((select_prev_not_inverted p t h hb) ▸ hq)
    · rcases hq with hq | hq
      · exact Or.inr ((select_next_inverted p t h hb) ▸ hq)
      · exact Or.inl ((select_prev_inverted p t h hb) ▸ hq)
  rcases himpl with hq | hq
  · obtain ⟨-, -, rfl⟩ := (selectNextImpl_eq_some_iff p t h q).mp hq
    exact ⟨_, rfl, Nat.mod_lt _ (by omega)⟩
  · obtain ⟨-, -, rfl⟩ := (selectPrevImpl_eq_some_iff p t h q).mp hq
    exact ⟨_, rfl, Nat.mod_lt _ (by omega)⟩

/-- C4 witness: `select_next` from the default Picker with a single item
completes in a state whose absolute selection is `Some 0 < 1`. -/
theorem navigation_absolute_in_range_witness :
    ∃ i, (Picker.mk (some 0) (some 0) false (Input.new "")).state = some i ∧ i < 1 :=
  navigation_absolute_in_range Picker.new 1 0
    (Picker.mk (some 0) (some 0) false (Input.new "")) (by decide)
    (Or.inl (by decide))

/-- C5 (amended): navigation is total on `total_items ≥ 1` only under the
additional `usize` bounds: both `select_next` and `select_prev` complete
whenever the stored relative index is strictly below `usize::MAX` and
`selected + (total_items - 1)` does not exceed `usize::MAX`; and with
`total_items = 0` both navigation calls fault (modulo by zero in the advance
step, underflow of `total_items - 1` in the retreat step), so `total_items = 0`
lies outside the operations' domain. -/
theorem navigation_totality (p : Picker) (t h : Nat) (ht : 1 ≤ t)
    (hr : p.relative_state.getD 0 < USIZE_MAX)
    (hs : p.state.getD 0 + (t - 1) ≤ USIZE_MAX) :
    (Picker.select_next p t h).isSome ∧ (Picker.select_prev p t h).isSome ∧
    Picker.select_next p 0 h = none ∧ Picker.select_prev p 0 h = none := by
  have hnext : (p._select_next t h).isSome := by
    rw [(selectNextImpl_eq_some_iff p t h _).mpr ⟨by omega, by omega, rfl⟩]
    rfl
  have hprev : (p._select_prev t h).isSome := by
    rw [(selectPrevImpl_eq_some_iff p t h _).mpr ⟨by omega, hs, rfl⟩]
    rfl
  have hnext0 : p._select_next 0 h = none := by
    simp [Picker._select_next]
  have hprev0 : p._select_prev 0 h = none := by
    simp [Picker._select_prev]
  cases hb : p.inverted
  · rw [select_next_not_inverted p t h hb, select_prev_not_inverted p t h hb,
      select_next_not_inverted p 0 h hb, select_prev_not_inverted p 0 h hb]
    exact ⟨hnext, hprev, hnext0, hprev0⟩
  · rw [select_next_inverted p t h hb, select_prev_inverted p t h hb,
      select_next_inverted p 0 h hb, select_prev_inverted p 0 h hb]
    exact ⟨hprev, hnext, hprev0, hnext0⟩

/-- C5 witness: on the default Picker with one item, both navigation calls
complete, and with zero items both fault. -/
theorem navigation_totality_witness :
    (Picker.select_next Picker.new 1 0).isSome ∧
    (Picker.select_prev Picker.new 1 0).isSome ∧
    Picker.select_next Picker.new 0 0 = none ∧
    Picker.select_prev Picker.new 0 0 = none :=
  navigation_totality Picker.new 1 0 (by decide) (by decide) (by decide)

/-- C5 counterexample: a state inside the claimed domain (`total_items = 1`)
on which `select_next` faults: with the stored relative index at `usize::MAX`,
the unchecked `relative_selected + 1` overflows, so navigation is not total
on `total_items ≥ 1` alone. -/
theorem navigation_fault_within_domain_cex :
    Picker.select_next ⟨some 0, some USIZE_MAX, false, Input.new ""⟩ 1 0 = none := by
  decide

/-- The cursor transition of `_select_next` depends only on the two stored
cursors, not on the inversion flag or the text-entry input. -/
theorem selectNextImpl_cursors_ext (st rel : Option Nat) (i1 i2 : Bool)
    (a b : Input) (t h : Nat) :
    cursors (Picker._select_next ⟨st, rel, i1, a⟩ t h) =
      cursors (Picker._select_next ⟨st, rel, i2, b⟩ t h) := by
  dsimp only [Picker._select_next, Picker.selected, Picker.relative_selected,
    Picker.select, Picker.relative_select, cursors]
  split_ifs <;> rfl

/-- The cursor transition of `_select_prev` depends only on the two stored
cursors, not on the inversion flag or the text-entry input. -/
theorem selectPrevImpl_cursors_ext (st rel : Option Nat) (i1 i2 : Bool)
    (a b : Input) (t h : Nat) :
    cursors (Picker._select_prev ⟨st, rel, i1, a⟩ t h) =
      cursors (Picker._select_prev ⟨st, rel, i2, b⟩ t h) := by
  dsimp only [Picker._select_prev, Picker.selected, Picker.relative_selected,
    Picker.select, Picker.relative_select, cursors]
  split_ifs <;> rfl

/-- C6: for every pair of Pickers with identical stored cursors, one inverted
and one not, and every `total_items ≥ 1` and height, `select_next` on the
inverted Picker produces exactly the cursor transition of `select_prev` on
the non-inverted one, and vice versa (including identical fault behaviour). -/
theorem inversion_symmetry (st rel : Option Nat) (a b : Input) (t h : Nat)
    (_ht : 1 ≤ t) :
    cursors (Picker.select_next ⟨st, rel, true, a⟩ t h) =
      cursors (Picker.select_prev ⟨st, rel, false, b⟩ t h) ∧
    cursors (Picker.select_prev ⟨st, rel, true, a⟩ t h) =
      cursors (Picker.select_next ⟨st, rel, false, b⟩ t h) := by
  constructor
  · rw [select_next_inverted _ _ _ rfl, select_prev_not_inverted _ _ _ rfl]
    exact selectPrevImpl_cursors_ext st rel true false a b t h
  · rw [select_prev_inverted _ _ _ rfl, select_next_not_inverted _ _ _ rfl]
    exact selectNextImpl_cursors_ext st rel true false a b t h

/-- C6 witness: with 4 items and height 2, starting from `(sel = 1, rel = 1)`,
the inverted `select_next` and the non-inverted `select_prev` produce the same
cursor transition, and symmetrically. -/
theorem inversion_symmetry_witness :
    cursors (Picker.select_next ⟨some 1, some 1, true, Input.new ""⟩ 4 2) =
      cursors (Picker.select_prev ⟨some 1, some 1, false, Input.new ""⟩ 4 2) ∧
    cursors (Picker.select_prev ⟨some 1, some 1, true, Input.new ""⟩ 4 2) =
      cursors (Picker.select_next ⟨some 1, some 1, false, Input.new ""⟩ 4 2) :=
  inversion_symmetry (some 1) (some 1) (Input.new "") (Input.new "") 4 2
    (by decide)

/-- C7 (amended): `offset()` equals `selected` saturating-minus the relative
index when both cursors are `Some`; `offset() ≤ selected` whenever a selection
is set; and `offset()` is `0` whenever the absolute cursor is `None`.  The
amendment drops the claim's "either cursor is None" case: when only the
relative cursor is `None` it is treated as `0`, so `offset()` returns the
stored selection, not `0`. -/
theorem offset_spec (p : Picker) :
    (∀ s r, p.state = some s → p.relative_state = some r → p.offset = s - r) ∧
    (∀ s, p.state = some s → p.offset ≤ s) ∧
    (p.state = none → p.offset = 0) := by
  refine ⟨?_, ?_, ?_⟩
  · intro s r h1 h2
    simp [Picker.offset, Picker.selected, Picker.relative_selected, h1, h2]
  · intro s h1
    simp only [Picker.offset, Picker.selected, Picker.relative_selected, h1,
      Option.getD_some]
    exact Nat.sub_le _ _
  · intro h1
    simp [Picker.offset, Picker.selected, Picker.relative_selected, h1]

/-- C7 witness: with selection `5` and relative index `2`, `offset()` is `3`. -/
theorem offset_spec_witness :
    Picker.offset ⟨some 5, some 2, false, Input.new ""⟩ = 3 := by
  have := (offset_spec ⟨some 5, some 2, false, Input.new ""⟩).1 5 2 rfl rfl
  simpa using this

/-- C7 counterexample: with selection `Some 5` and relative cursor `None`,
`offset()` returns `5`, not `0`, refuting the claim that `offset()` is `0`
whenever either cursor is `None`. -/
theorem offset_none_cex :
    Picker.offset ⟨some 5, none, false, Input.new ""⟩ = 5 ∧ (5 : Nat) ≠ 0 := by
  refine ⟨by decide, by decide⟩

/-- C8: navigation modifies only the two stored cursors — for every Picker
state, `total_items ≥ 1` and height, the inversion flag and the text-entry
input are unchanged by every completing `select_next`/`select_prev` call —
and the consuming builder flips only the inversion flag, leaving both stored
cursors and the input unchanged. -/
theorem navigation_frame (p : Picker) (t h : Nat) (_ht : 1 ≤ t) :
    (∀ q, Picker.select_next p t h = some q →
      q.inverted = p.inverted ∧ q.input = p.input) ∧
    (∀ q, Picker.select_prev p t h = some q →
      q.inverted = p.inverted ∧ q.input = p.input) ∧
    (p.inverted_fn.state = p.state ∧
      p.inverted_fn.relative_state = p.relative_state ∧
      p.inverted_fn.input = p.input ∧
      p.inverted_fn.inverted = !p.inverted) := by
  have hnext : ∀ q, p._select_next t h = some q →
      q.inverted = p.inverted ∧ q.input = p.input := by
    intro q hq
    obtain ⟨-, -, rfl⟩ := (selectNextImpl_eq_some_iff p t h q).mp hq
    exact ⟨rfl, rfl⟩
  have hprev : ∀ q, p._select_prev t h = some q →
      q.inverted = p.inverted ∧ q.input = p.input := by
    intro q hq
    obtain ⟨-, -, rfl⟩ := (selectPrevImpl_eq_some_iff p t h q).mp hq
    exact ⟨rfl, rfl⟩
  refine ⟨?_, ?_, rfl, rfl, rfl, rfl⟩
  · intro q hq
    cases hb : p.inverted
    · have hc := hnext q ((select_next_not_inverted p t h hb) ▸ hq)
      exact ⟨hb ▸ hc.1, hc.2⟩
    · have hc := hprev q ((select_next_inverted p t h hb) ▸ hq)
      exact ⟨hb ▸ hc.1, hc.2⟩
  · intro q hq
    cases hb : p.inverted
    · have hc := hprev q ((select_prev_not_inverted p t h hb) ▸ hq)
      exact ⟨hb ▸ hc.1, hc.2⟩
    · have hc := hnext q ((select_prev_inverted p t h hb) ▸ hq)
      exact ⟨hb ▸ hc.1, hc.2⟩

/-- C8 witness: the state produced by `select_next` on the default Picker with
one item keeps the default's inversion flag and input. -/
theorem navigation_frame_witness :
    (Picker.mk (some 0) (some 0) false (Input.new "")).inverted
      = Picker.new.inverted ∧
    (Picker.mk (some 0) (some 0) false (Input.new "")).input
      = Picker.new.input :=
  (navigation_frame Picker.new 1 0 (by decide)).1
    (Picker.mk (some 0) (some 0) false (Input.new "")) (by decide)

/-- C9: the `total_items ≥ 1` precondition alone does not make navigation
total: non-inverted `select_next` computes `relative_selected + 1` unchecked
and faults whenever the stored relative index is `usize::MAX`; non-inverted
`select_prev` computes `selected + (total_items - 1)` unchecked and faults
whenever that sum exceeds `usize::MAX`; and both out-of-range stored values
are reachable from the default Picker through the unvalidated setters
`select` and `relative_select`. -/
theorem unchecked_add_overflow (st : Option Nat) (inp : Input) (t h : Nat)
    (_ht : 1 ≤ t) :
    Picker.select_next ⟨st, some USIZE_MAX, false, inp⟩ t h = none ∧
    (∀ s rel, USIZE_MAX < s + (t - 1) →
      Picker.select_prev ⟨some s, rel, false, inp⟩ t h = none) ∧
    ((Picker.new.select (some USIZE_MAX)).relative_select
      (some USIZE_MAX)).state = some USIZE_MAX ∧
    ((Picker.new.select (some USIZE_MAX)).relative_select
      (some USIZE_MAX)).relative_state = some USIZE_MAX := by
  refine ⟨?_, ?_, rfl, rfl⟩
  · rw [select_next_not_inverted _ _ _ rfl]
    exact selectNextImpl_overflow _ t h
      (show USIZE_MAX < USIZE_MAX + 1 by omega)
  · intro s rel hover
    rw [select_prev_not_inverted _ _ _ rfl]
    exact selectPrevImpl_overflow _ t h hover

/-- C9 witness: with the relative cursor stored at `usize::MAX`,
`select_next(3, 7)` faults, and with the absolute cursor stored at
`usize::MAX`, `select_prev(4, 7)` faults. -/
theorem unchecked_add_overflow_witness :
    Picker.select_next ⟨some 0, some USIZE_MAX, false, Input.new ""⟩ 3 7 = none ∧
    Picker.select_prev ⟨some USIZE_MAX, some 3, false, Input.new ""⟩ 4 7 = none :=
  ⟨(unchecked_add_overflow (some 0) (Input.new "") 3 7 (by decide)).1,
   (unchecked_add_overflow (some 0) (Input.new "") 4 7 (by decide)).2.1
     USIZE_MAX (some 3) (by decide)⟩

/-- C10: on a non-inverted Picker in the default nothing-selected state (both
cursors `None`), `select_next(total_items, height)` with `total_items ≥ 2`
treats the missing selection as `0` and yields selection `Some 1` with
relative index `Some (min 1 height)`: the first forward navigation from the
unselected state skips item `0`. -/
theorem select_next_skips_first_item (inp : Input) (t h : Nat) (ht : 2 ≤ t) :
    Picker.select_next ⟨none, none, false, inp⟩ t h =
      some ⟨some 1, some (min 1 h), false, inp⟩ := by
  have heq := selectNext_advance_eq none none inp t h (by omega)
    (by decide) (by decide)
  rw [heq]
  have h1 : (1 : Nat) % t = 1 := Nat.mod_eq_of_lt (by omega)
  simp [h1]

/-- C10 witness: from the default Picker with 2 items and height 0, the first
`select_next` selects item `1`, not item `0`. -/
theorem select_next_skips_first_item_witness :
    Picker.select_next ⟨none, none, false, Input.new ""⟩ 2 0 =
      some ⟨some 1, some 0, false, Input.new ""⟩ := by
  have := select_next_skips_first_item (Input.new "") 2 0 (by decide)
  simpa using this
